import Mathlib

/-!
Shallow embedding of the acquisition core of `railway-opendata`
(`src/scraper/api.py` and `src/scraper/train.py`), together with proofs
about the behaviour of `ViaggiaTrenoAPI._raw_request`, `_to_datetime`,
`Train._from_station_departures_arrivals` and `Train.fetch`.

Python exceptions are modelled explicitly: stateful methods return the
mutated object together with an optional raised exception (mutations
performed before a raise persist, as they do on a Python object).
External effects (the HTTP session, `json.loads`, the station directory)
are passed in as explicit oracles.
-/

namespace RailwayOpendata

/-- Containment of one character list inside another. -/
def listContains (needle : List Char) : List Char → Bool
  | [] => needle.isEmpty
  | c :: rest => needle.isPrefixOf (c :: rest) || listContains needle rest

/-- Python `needle in haystack` on strings (substring containment). -/
def pyContains (haystack needle : String) : Bool :=
  listContains needle.data haystack.data

/-- Python `str.upper()`: uppercase every character. -/
def pyUpper (s : String) : String :=
  String.mk (s.data.map Char.toUpper)

/-- Python `str.strip()`: drop leading and trailing whitespace. -/
def pyStrip (s : String) : String :=
  String.mk (((s.data.dropWhile Char.isWhitespace).reverse.dropWhile Char.isWhitespace).reverse)

/-- Python truthiness of a string: true iff non-empty. -/
def pyTruthyStr (s : String) : Bool :=
  s != ""

/-- Python truthiness of an `Optional[str]`: `None` and `""` are falsy. -/
def pyTruthyOptStr : Option String → Bool
  | none => false
  | some s => s != ""

/-- Python truthiness of an `Optional[bool]`: `None` and `False` are falsy. -/
def pyTruthyOptBool : Option Bool → Bool
  | none => false
  | some b => b

/-- An HTTP response as seen through the `requests` library:
the fully-resolved URL, the status code and the body text. -/
structure HTTPResponse where
  url : String
  status_code : Int
  text : String
deriving DecidableEq

/-- Embeds `BadRequestException` (api.py:13-29): a structured error
carrying the request URL, the response status code and the raw body. -/
structure BadRequestException where
  url : String
  status_code : Int
  response : String
deriving DecidableEq

/-- A Python exception that `fetch` or construction can raise or absorb. -/
inductive PyExc where
  | badRequest (e : BadRequestException)
  | jsonDecodeError
  | keyError (k : String)
deriving DecidableEq

namespace ViaggiaTrenoAPI

/-- Embeds `ViaggiaTrenoAPI.BASE_URL` (api.py:33). -/
def BASE_URL : String :=
  "http://www.viaggiatreno.it/infomobilita/resteasy/viaggiatreno/"

/-- The URL composed by `_raw_request` (api.py:66-67):
base url, method, `/`, parameters joined by `/`. -/
def requestUrl (method : String) (parameters : List String) : String :=
  BASE_URL ++ method ++ "/" ++ String.intercalate "/" parameters

/-- Embeds `ViaggiaTrenoAPI._raw_request` (api.py:50-77).  The network is an
oracle mapping the request URL to the `HTTPResponse` the session produces
(after its internal retries).  Returns the body on success, raises
`BadRequestException` when the status is not 200 or the body contains the
substring `"Error"`. -/
def _raw_request (net : String → HTTPResponse) (method : String)
    (parameters : List String) : Except BadRequestException String :=
  let response : HTTPResponse := net (requestUrl method parameters)
  if response.status_code != 200 || pyContains response.text "Error" then
    .error ⟨response.url, response.status_code, response.text⟩
  else
    .ok response.text

end ViaggiaTrenoAPI

/-- Modelled from the spec: `TIMEZONE` from `src/const.py` (not under `src/`),
the fixed reference timezone used for every timestamp. -/
def TIMEZONE : String := "Europe/Rome"

/-- A timezone-aware Python `datetime`, represented by the instant it
denotes (epoch milliseconds) and its timezone.  `datetime.fromtimestamp(t
/ 1000, tz=TIMEZONE)` denotes exactly the instant `t` ms after the epoch,
so this representation is faithful for millisecond inputs. -/
structure PyDatetime where
  epochMs : Int
  tz : String
deriving DecidableEq

namespace ViaggiaTrenoAPI

/-- Embeds `ViaggiaTrenoAPI._to_datetime` (api.py:91-105): `None` and `0`
map to `None` (`if not time`), any other integer epoch-millisecond value
maps to the corresponding aware datetime in `TIMEZONE`. -/
def _to_datetime (time : Option Int) : Option PyDatetime :=
  match time with
  | none => none
  | some t => if t = 0 then none else some ⟨t, TIMEZONE⟩

end ViaggiaTrenoAPI

/-- Modelled from the spec: a `Station` (from `src/scraper/station.py`,
not under `src/`) carries a stable `code` and a `name`; `Train` only holds
a reference obtained from the directory lookup. -/
structure Station where
  code : String
  name : String
deriving DecidableEq

/-- The fields of the `andamentoTreno` JSON object that `Train.fetch`
accesses.  `none` means the key is missing (access raises `KeyError`);
`oraUltimoRilevamento` may be present but JSON `null` (inner `none`). -/
structure TrainData where
  idDestinazione : Option String
  categoria : Option String
  nonPartito : Option Bool
  provvedimento : Option Int
  ritardo : Option Int
  stazioneUltimoRilevamento : Option String
  oraUltimoRilevamento : Option (Option Int)
deriving DecidableEq

/-- The fields of a `partenze`/`arrivi` listing record that
`Train._from_station_departures_arrivals` accesses. -/
structure StationRecord where
  numeroTreno : Option Int
  codOrigine : Option String
  categoriaDescrizione : Option String
  nonPartito : Option Bool
  provvedimento : Option Int
deriving DecidableEq

/-- Embeds the `Train` object (train.py:8-48): identity plus the mutable
attributes populated by the two fetch phases. -/
structure Train where
  number : Int
  origin : Station
  destination : Option Station
  category : Option String
  departed : Option Bool
  cancelled : Option Bool
  delay : Option Int
  last_detection_place : Option String
  last_detection_time : Option PyDatetime
  _phantom : Bool
deriving DecidableEq

namespace Train

/-- Embeds `Train.__init__` (train.py:26-48): every field other than the
identity starts unset and `_phantom` starts false. -/
def init (number : Int) (origin : Station) : Train :=
  { number := number
    origin := origin
    destination := none
    category := none
    departed := none
    cancelled := none
    delay := none
    last_detection_place := none
    last_detection_time := none
    _phantom := false }

/-- Embeds `Train._from_station_departures_arrivals` (train.py:50-68).
The station directory is the oracle `by_code`; a missing dict key raises
`KeyError`, a failed origin lookup propagates `BadRequestException`. -/
def _from_station_departures_arrivals
    (by_code : String → Except BadRequestException Station)
    (train_data : StationRecord) : Except PyExc Train :=
  match train_data.numeroTreno with
  | none => .error (.keyError "numeroTreno")
  | some n =>
    match train_data.codOrigine with
    | none => .error (.keyError "codOrigine")
    | some oc =>
      match by_code oc with
      | .error e => .error (.badRequest e)
      | .ok origin =>
        match train_data.categoriaDescrizione with
        | none => .error (.keyError "categoriaDescrizione")
        | some cd =>
          match train_data.nonPartito with
          | none => .error (.keyError "nonPartito")
          | some np =>
            match train_data.provvedimento with
            | none => .error (.keyError "provvedimento")
            | some pr =>
              .ok { Train.init n origin with
                      category := some (pyStrip (pyUpper cd))
                      departed := some (!np)
                      cancelled := some (pr != 0) }

end Train

/-- Sequencing of Python statements on a mutable `self`: once a statement
has raised, later statements do not run, and the mutations already made
persist on the object. -/
def pyseq (r : Train × Option PyExc) (f : Train → Train × Option PyExc) :
    Train × Option PyExc :=
  match r with
  | (t, some e) => (t, some e)
  | (t, none) => f t

namespace Train

/-- Embeds train.py:96-100: `self.destination =
st.Station.by_code(train_data["idDestinazione"])` guarded by `except
api.BadRequestException: pass`; the `KeyError` from a missing key is not a
`BadRequestException` and propagates. -/
def stepDestination (td : TrainData)
    (by_code : String → Except BadRequestException Station)
    (t : Train) : Train × Option PyExc :=
  match td.idDestinazione with
  | none => (t, some (.keyError "idDestinazione"))
  | some code =>
    match by_code code with
    | .ok s => ({ t with destination := some s }, none)
    | .error _ => (t, none)

/-- Embeds train.py:102-107: assign the uppercased/stripped payload
category only when it is truthy, has positive length, and the current
category is falsy. -/
def stepCategory (td : TrainData) (t : Train) : Train × Option PyExc :=
  match td.categoria with
  | none => (t, some (.keyError "categoria"))
  | some raw =>
    let category : String := pyStrip (pyUpper raw)
    if pyTruthyStr category && decide (0 < category.length)
        && !pyTruthyOptStr t.category then
      ({ t with category := some category }, none)
    else
      (t, none)

/-- Embeds train.py:109: `self.departed = not train_data["nonPartito"]`. -/
def stepDeparted (td : TrainData) (t : Train) : Train × Option PyExc :=
  match td.nonPartito with
  | none => (t, some (.keyError "nonPartito"))
  | some np => ({ t with departed := some (!np) }, none)

/-- Embeds train.py:110: `self.cancelled = train_data["provvedimento"] != 0`. -/
def stepCancelled (td : TrainData) (t : Train) : Train × Option PyExc :=
  match td.provvedimento with
  | none => (t, some (.keyError "provvedimento"))
  | some pr => ({ t with cancelled := some (pr != 0) }, none)

/-- Embeds train.py:112: `self.delay = train_data["ritardo"] if
self.departed else None`; the key is only accessed when `self.departed`
is truthy. -/
def stepDelay (td : TrainData) (t : Train) : Train × Option PyExc :=
  if pyTruthyOptBool t.departed then
    match td.ritardo with
    | none => (t, some (.keyError "ritardo"))
    | some r => ({ t with delay := some r }, none)
  else
    ({ t with delay := none }, none)

/-- Embeds train.py:113-117: the `"--"` sentinel is normalized to unset. -/
def stepLastDetectionPlace (td : TrainData) (t : Train) : Train × Option PyExc :=
  match td.stazioneUltimoRilevamento with
  | none => (t, some (.keyError "stazioneUltimoRilevamento"))
  | some s =>
    ({ t with last_detection_place := if s != "--" then some s else none }, none)

/-- Embeds train.py:118-120: last detection time via `_to_datetime`. -/
def stepLastDetectionTime (td : TrainData) (t : Train) : Train × Option PyExc :=
  match td.oraUltimoRilevamento with
  | none => (t, some (.keyError "oraUltimoRilevamento"))
  | some v =>
    ({ t with last_detection_time := ViaggiaTrenoAPI._to_datetime v }, none)

/-- The body of `Train.fetch` after a successful decode (train.py:96-120),
as the sequence of mutating statements. -/
def applyDetails (by_code : String → Except BadRequestException Station)
    (td : TrainData) (t : Train) : Train × Option PyExc :=
  pyseq (stepDestination td by_code t) (fun t1 =>
    pyseq (stepCategory td t1) (fun t2 =>
      pyseq (stepDeparted td t2) (fun t3 =>
        pyseq (stepCancelled td t3) (fun t4 =>
          pyseq (stepDelay td t4) (fun t5 =>
            pyseq (stepLastDetectionPlace td t5) (fun t6 =>
              stepLastDetectionTime td t6))))))

end Train

/-- The external world a single `fetch()` call observes: the HTTP session
(`net`, already including retries), the behaviour of `json.loads` on the
body (`parse`, `none` meaning `json.JSONDecodeError`), the station
directory, and the epoch-ms of local midnight for today, computed at
train.py:77-81. -/
structure FetchEnv where
  net : String → HTTPResponse
  parse : String → Option TrainData
  by_code : String → Except BadRequestException Station
  midnightMs : Int

/-- Embeds `ViaggiaTrenoAPI._decode_json` (api.py:79-89): `json.loads`
either returns a value or raises `json.JSONDecodeError` — never a
`BadRequestException`. -/
def ViaggiaTrenoAPI._decode_json (parse : String → Option TrainData)
    (string : String) : Except PyExc TrainData :=
  match parse string with
  | some v => .ok v
  | none => .error .jsonDecodeError

namespace Train

/-- Embeds `Train.fetch` (train.py:70-120).  The `_raw_request` call at
train.py:83 stands before the `try` block at train.py:90, so a
`BadRequestException` it raises propagates to the caller; the `except
api.BadRequestException` at train.py:92 guards only `_decode_json`, whose
decode failure is a `json.JSONDecodeError` and therefore also propagates;
the handler that sets `_phantom` is kept to mirror the source. -/
def fetch (t : Train) (env : FetchEnv) : Train × Option PyExc :=
  match ViaggiaTrenoAPI._raw_request env.net "andamentoTreno"
      [t.origin.code, toString t.number, toString env.midnightMs] with
  | .error e => (t, some (.badRequest e))
  | .ok raw_details =>
    match ViaggiaTrenoAPI._decode_json env.parse raw_details with
    | .error (.badRequest _) => ({ t with _phantom := true }, none)
    | .error e => (t, some e)
    | .ok train_data => applyDetails env.by_code train_data t

end Train

/-- The HTTP response `fetch` observes for its detail request. -/
def detailResponse (t : Train) (env : FetchEnv) : HTTPResponse :=
  env.net (ViaggiaTrenoAPI.requestUrl "andamentoTreno"
    [t.origin.code, toString t.number, toString env.midnightMs])

/-- The states a `Train` reaches through the public lifecycle:
construction (`__init__` or from a listing record) followed by any number
of `fetch()` calls under arbitrary environments. -/
inductive Reachable : Train → Prop where
  | init : ∀ (n : Int) (o : Station), Reachable (Train.init n o)
  | listed : ∀ (bc : String → Except BadRequestException Station)
      (d : StationRecord) (t : Train),
      Train._from_station_departures_arrivals bc d = .ok t → Reachable t
  | fetched : ∀ (t : Train) (env : FetchEnv),
      Reachable t → Reachable (Train.fetch t env).1

/-- The phantom invariant of the spec: a phantom train has `delay`,
`last_detection_place` and `last_detection_time` unset. -/
def phantomConsistent (t : Train) : Bool :=
  !t._phantom ||
    (t.delay.isNone && t.last_detection_place.isNone && t.last_detection_time.isNone)

end RailwayOpendata

namespace RailwayOpendata

/-- The first key of the detail payload whose access in train.py:102-120
raises `KeyError` (the `ritardo` access at train.py:112 happens only when
the recomputed `departed` is truthy), or `none` when every access made by
the code succeeds. -/
def missingKeyReached (td : TrainData) : Option String :=
  if td.categoria.isNone then some "categoria"
  else if td.nonPartito.isNone then some "nonPartito"
  else if td.provvedimento.isNone then some "provvedimento"
  else if td.nonPartito == some false && td.ritardo.isNone then some "ritardo"
  else if td.stazioneUltimoRilevamento.isNone then some "stazioneUltimoRilevamento"
  else if td.oraUltimoRilevamento.isNone then some "oraUltimoRilevamento"
  else none

/-- A concrete station used by the concrete scenarios below. -/
def station1 : Station := ⟨"S1", "Station One"⟩

/-- A freshly constructed train (phase 1 listing data not yet applied). -/
def t0 : Train := Train.init 100 station1

/-- A complete, well-formed detail payload. -/
def tdFull : TrainData :=
  { idDestinazione := some "S2"
    categoria := some " reg "
    nonPartito := some false
    provvedimento := some 0
    ritardo := some 5
    stazioneUltimoRilevamento := some "Milano"
    oraUltimoRilevamento := some (some 1700000000000) }

/-- An environment whose detail request succeeds and decodes to `tdFull`. -/
def envOK : FetchEnv :=
  { net := fun _ => ⟨"http://resolved", 200, "detail-body"⟩
    parse := fun _ => some tdFull
    by_code := fun c => .ok ⟨c, c⟩
    midnightMs := 0 }

/-- An environment whose detail request fails with HTTP 500. -/
def envFail500 : FetchEnv :=
  { net := fun _ => ⟨"http://resolved", 500, "server error"⟩
    parse := fun _ => none
    by_code := fun c => .ok ⟨c, c⟩
    midnightMs := 0 }

/-- An environment returning HTTP 200 with a body `json.loads` rejects. -/
def envBadJson : FetchEnv :=
  { net := fun _ => ⟨"http://resolved", 200, "not-json"⟩
    parse := fun _ => none
    by_code := fun c => .ok ⟨c, c⟩
    midnightMs := 0 }

/-- A train already carrying a non-empty category from phase 1. -/
def tC4 : Train := { t0 with category := some "REG" }

/-- A detail payload whose category field is whitespace-only. -/
def tdWhitespaceCat : TrainData := { tdFull with categoria := some "   " }

/-- A successful environment returning the whitespace-category payload. -/
def envWS : FetchEnv := { envOK with parse := fun _ => some tdWhitespaceCat }

/-- A successful environment whose destination lookup fails. -/
def envDestFail : FetchEnv :=
  { envOK with by_code := fun _ => .error ⟨"http://resolved", 204, "not found"⟩ }

/-- A train already in the Phantom state. -/
def tPhantom : Train := { t0 with _phantom := true }

/-- A detail payload missing the `categoria` key. -/
def tdMissingCat : TrainData := { tdFull with categoria := none }

/-- A successful environment returning the payload missing `categoria`. -/
def envMissingCat : FetchEnv := { envOK with parse := fun _ => some tdMissingCat }

/-- A station directory resolving every code. -/
def bcW : String → Except BadRequestException Station := fun c => .ok ⟨c, c⟩

/-- The listing record of the end-to-end example of the spec. -/
def recW : StationRecord :=
  { numeroTreno := some 100
    codOrigine := some "S1"
    categoriaDescrizione := some " reg "
    nonPartito := some false
    provvedimento := some 0 }

lemma detailResponse_eq (t : Train) (env : FetchEnv) :
    env.net (ViaggiaTrenoAPI.requestUrl "andamentoTreno"
      [t.origin.code, toString t.number, toString env.midnightMs]) = detailResponse t env := rfl

lemma pyseq_pres {p : Train → Prop} {r : Train × Option PyExc} {f : Train → Train × Option PyExc}
    (h1 : p r.1) (h2 : ∀ u, p u → p (f u).1) : p (pyseq r f).1 := by
  rcases r with ⟨u, e⟩
  cases e with
  | none => simpa [pyseq] using h2 u h1
  | some e => simpa [pyseq] using h1

lemma stepDestination_phantom (td : TrainData) (bc : String → Except BadRequestException Station)
    (t : Train) : (Train.stepDestination td bc t).1._phantom = t._phantom := by
  unfold Train.stepDestination
  repeat' split
  all_goals simp

lemma stepCategory_phantom (td : TrainData) (t : Train) :
    (Train.stepCategory td t).1._phantom = t._phantom := by
  unfold Train.stepCategory
  dsimp only
  repeat' split
  all_goals simp

lemma stepDeparted_phantom (td : TrainData) (t : Train) :
    (Train.stepDeparted td t).1._phantom = t._phantom := by
  unfold Train.stepDeparted
  repeat' split
  all_goals simp

lemma stepCancelled_phantom (td : TrainData) (t : Train) :
    (Train.stepCancelled td t).1._phantom = t._phantom := by
  unfold Train.stepCancelled
  repeat' split
  all_goals simp

lemma stepDelay_phantom (td : TrainData) (t : Train) :
    (Train.stepDelay td t).1._phantom = t._phantom := by
  unfold Train.stepDelay
  repeat' split
  all_goals simp

lemma stepLastDetectionPlace_phantom (td : TrainData) (t : Train) :
    (Train.stepLastDetectionPlace td t).1._phantom = t._phantom := by
  unfold Train.stepLastDetectionPlace
  repeat' split
  all_goals simp

lemma stepLastDetectionTime_phantom (td : TrainData) (t : Train) :
    (Train.stepLastDetectionTime td t).1._phantom = t._phantom := by
  unfold Train.stepLastDetectionTime
  repeat' split
  all_goals simp

lemma applyDetails_phantom (bc : String → Except BadRequestException Station)
    (td : TrainData) (t : Train) :
    (Train.applyDetails bc td t).1._phantom = t._phantom := by
  unfold Train.applyDetails
  exact pyseq_pres (p := fun u => u._phantom = t._phantom)
    (stepDestination_phantom td bc t)
    (fun u1 h1 => pyseq_pres ((stepCategory_phantom td u1).trans h1)
      (fun u2 h2 => pyseq_pres ((stepDeparted_phantom td u2).trans h2)
        (fun u3 h3 => pyseq_pres ((stepCancelled_phantom td u3).trans h3)
          (fun u4 h4 => pyseq_pres ((stepDelay_phantom td u4).trans h4)
            (fun u5 h5 => pyseq_pres ((stepLastDetectionPlace_phantom td u5).trans h5)
              (fun u6 h6 => (stepLastDetectionTime_phantom td u6).trans h6))))))

lemma fetch_phantom (t : Train) (env : FetchEnv) :
    (Train.fetch t env).1._phantom = t._phantom := by
  unfold Train.fetch
  rcases hr : ViaggiaTrenoAPI._raw_request env.net "andamentoTreno"
      [t.origin.code, toString t.number, toString env.midnightMs] with e | raw
  · simp [hr]
  · rcases hp : env.parse raw with _ | td
    · simp [hr, ViaggiaTrenoAPI._decode_json, hp]
    · simp [hr, ViaggiaTrenoAPI._decode_json, hp, applyDetails_phantom]

lemma from_listing_fields (bc : String → Except BadRequestException Station)
    (d : StationRecord) (t : Train)
    (h : Train._from_station_departures_arrivals bc d = .ok t) :
    t._phantom = false ∧ t.delay = none ∧ t.last_detection_place = none
    ∧ t.last_detection_time = none := by
  unfold Train._from_station_departures_arrivals at h
  repeat' split at h
  all_goals cases h
  all_goals simp [Train.init]

lemma reachable_phantom_false (t : Train) (h : Reachable t) : t._phantom = false := by
  induction h with
  | init n o => rfl
  | listed bc d t hl => exact (from_listing_fields bc d t hl).1
  | fetched u env hu ih => rw [fetch_phantom]; exact ih

lemma stepDestination_category (td : TrainData) (bc : String → Except BadRequestException Station)
    (t : Train) : (Train.stepDestination td bc t).1.category = t.category := by
  unfold Train.stepDestination
  repeat' split
  all_goals simp

lemma stepCategory_category_sticky (td : TrainData) (t : Train)
    (h : pyTruthyOptStr t.category = true) :
    (Train.stepCategory td t).1.category = t.category := by
  unfold Train.stepCategory
  dsimp only
  repeat' split
  all_goals simp_all

lemma stepDeparted_category (td : TrainData) (t : Train) :
    (Train.stepDeparted td t).1.category = t.category := by
  unfold Train.stepDeparted
  repeat' split
  all_goals simp

lemma stepCancelled_category (td : TrainData) (t : Train) :
    (Train.stepCancelled td t).1.category = t.category := by
  unfold Train.stepCancelled
  repeat' split
  all_goals simp

lemma stepDelay_category (td : TrainData) (t : Train) :
    (Train.stepDelay td t).1.category = t.category := by
  unfold Train.stepDelay
  repeat' split
  all_goals simp

lemma stepLastDetectionPlace_category (td : TrainData) (t : Train) :
    (Train.stepLastDetectionPlace td t).1.category = t.category := by
  unfold Train.stepLastDetectionPlace
  repeat' split
  all_goals simp

lemma stepLastDetectionTime_category (td : TrainData) (t : Train) :
    (Train.stepLastDetectionTime td t).1.category = t.category := by
  unfold Train.stepLastDetectionTime
  repeat' split
  all_goals simp

lemma applyDetails_category_sticky (bc : String → Except BadRequestException Station)
    (td : TrainData) (t : Train) (h : pyTruthyOptStr t.category = true) :
    (Train.applyDetails bc td t).1.category = t.category := by
  unfold Train.applyDetails
  exact pyseq_pres (p := fun u => u.category = t.category)
    (stepDestination_category td bc t)
    (fun u1 h1 => pyseq_pres
      ((stepCategory_category_sticky td u1 (by rw [h1]; exact h)).trans h1)
      (fun u2 h2 => pyseq_pres ((stepDeparted_category td u2).trans h2)
        (fun u3 h3 => pyseq_pres ((stepCancelled_category td u3).trans h3)
          (fun u4 h4 => pyseq_pres ((stepDelay_category td u4).trans h4)
            (fun u5 h5 => pyseq_pres ((stepLastDetectionPlace_category td u5).trans h5)
              (fun u6 h6 => (stepLastDetectionTime_category td u6).trans h6))))))

lemma fetch_category_sticky (t : Train) (env : FetchEnv)
    (h : pyTruthyOptStr t.category = true) :
    (Train.fetch t env).1.category = t.category := by
  unfold Train.fetch
  rcases hr : ViaggiaTrenoAPI._raw_request env.net "andamentoTreno"
      [t.origin.code, toString t.number, toString env.midnightMs] with e | raw
  · simp [hr]
  · rcases hp : env.parse raw with _ | td
    · simp [hr, ViaggiaTrenoAPI._decode_json, hp]
    · simp [hr, ViaggiaTrenoAPI._decode_json, hp]
      exact applyDetails_category_sticky env.by_code td t h

lemma failCond_true {resp : HTTPResponse}
    (h : ¬(resp.status_code = 200 ∧ pyContains resp.text "Error" = false)) :
    (resp.status_code != 200 || pyContains resp.text "Error") = true := by
  by_cases hA : resp.status_code = 200
  · have hB : pyContains resp.text "Error" = true := by
      cases hB2 : pyContains resp.text "Error"
      · exact absurd ⟨hA, hB2⟩ h
      · rfl
    simp [hB]
  · simp [hA]

lemma fetch_request_error (t : Train) (env : FetchEnv)
    (h : ¬((detailResponse t env).status_code = 200
      ∧ pyContains (detailResponse t env).text "Error" = false)) :
    Train.fetch t env =
      (t, some (.badRequest ⟨(detailResponse t env).url, (detailResponse t env).status_code,
        (detailResponse t env).text⟩)) := by
  unfold Train.fetch ViaggiaTrenoAPI._raw_request
  dsimp only
  rw [detailResponse_eq]
  simp [failCond_true h]

lemma fetch_decoded (t : Train) (env : FetchEnv) (td : TrainData)
    (h200 : (detailResponse t env).status_code = 200)
    (hne : pyContains (detailResponse t env).text "Error" = false)
    (hparse : env.parse (detailResponse t env).text = some td) :
    Train.fetch t env = Train.applyDetails env.by_code td t := by
  unfold Train.fetch ViaggiaTrenoAPI._raw_request ViaggiaTrenoAPI._decode_json
  dsimp only
  rw [detailResponse_eq]
  simp [h200, hne, hparse]

lemma fetch_decode_error (t : Train) (env : FetchEnv)
    (h200 : (detailResponse t env).status_code = 200)
    (hne : pyContains (detailResponse t env).text "Error" = false)
    (hparse : env.parse (detailResponse t env).text = none) :
    Train.fetch t env = (t, some .jsonDecodeError) := by
  unfold Train.fetch ViaggiaTrenoAPI._raw_request ViaggiaTrenoAPI._decode_json
  dsimp only
  rw [detailResponse_eq]
  simp [h200, hne, hparse]

lemma applyDetails_full (bc : String → Except BadRequestException Station)
    (td : TrainData) (t : Train) (d s sp : String) (np : Bool) (pr rv : Int)
    (ot : Option Int)
    (hd : td.idDestinazione = some d)
    (hcat : td.categoria = some s)
    (hnp : td.nonPartito = some np)
    (hpr : td.provvedimento = some pr)
    (hrit : np = false → td.ritardo = some rv)
    (hsp : td.stazioneUltimoRilevamento = some sp)
    (hot : td.oraUltimoRilevamento = some ot) :
    Train.applyDetails bc td t =
      ({ t with
          destination := (match bc d with | .ok st => some st | .error _ => t.destination)
          category := (if pyTruthyStr (pyStrip (pyUpper s))
              && decide (0 < (pyStrip (pyUpper s)).length)
              && !pyTruthyOptStr t.category then some (pyStrip (pyUpper s)) else t.category)
          departed := some (!np)
          cancelled := some (pr != 0)
          delay := (if np then none else some rv)
          last_detection_place := (if sp != "--" then some sp else none)
          last_detection_time := ViaggiaTrenoAPI._to_datetime ot }, none) := by
  cases np with
  | false =>
    have hr := hrit rfl
    cases hbc : bc d <;>
      simp_all [Train.applyDetails, pyseq, Train.stepDestination, Train.stepCategory,
        Train.stepDeparted, Train.stepCancelled, Train.stepDelay,
        Train.stepLastDetectionPlace, Train.stepLastDetectionTime, pyTruthyOptBool] <;>
      split_ifs <;>
      simp_all
  | true =>
    cases hbc : bc d <;>
      simp_all [Train.applyDetails, pyseq, Train.stepDestination, Train.stepCategory,
        Train.stepDeparted, Train.stepCancelled, Train.stepDelay,
        Train.stepLastDetectionPlace, Train.stepLastDetectionTime, pyTruthyOptBool] <;>
      split_ifs <;>
      simp_all

lemma applyDetails_keyError (bc : String → Except BadRequestException Station)
    (td : TrainData) (t : Train) (d : String) (st : Station) (k : String)
    (hd : td.idDestinazione = some d) (hbc : bc d = .ok st)
    (hk : missingKeyReached td = some k) :
    (Train.applyDetails bc td t).2 = some (.keyError k)
    ∧ (Train.applyDetails bc td t).1.destination = some st := by
  rcases td with ⟨idD, cat, np, pr, rit, sp, ot⟩
  obtain rfl : idD = some d := by simpa using hd
  rcases cat with _ | c <;> rcases np with _ | b <;> rcases pr with _ | p <;>
    rcases rit with _ | r <;> rcases sp with _ | s <;> rcases ot with _ | o <;>
    (try cases b) <;>
    simp_all [missingKeyReached, Train.applyDetails, pyseq, Train.stepDestination,
      Train.stepCategory, Train.stepDeparted, Train.stepCancelled, Train.stepDelay,
      Train.stepLastDetectionPlace, Train.stepLastDetectionTime, pyTruthyOptBool] <;>
    split_ifs <;>
    simp_all [missingKeyReached, Train.applyDetails, pyseq, Train.stepDestination,
      Train.stepCategory, Train.stepDeparted, Train.stepCancelled, Train.stepDelay,
      Train.stepLastDetectionPlace, Train.stepLastDetectionTime, pyTruthyOptBool]

end RailwayOpendata

namespace RailwayOpendata

/-- Claim C1: the spec says a failing detail request (non-200/soft error or
JSON decode failure) is absorbed: `_phantom` becomes true, nothing else
changes and no exception reaches the caller of `fetch()`.  The code does
the opposite: the `_raw_request` call (train.py:83) stands outside the
`try` at train.py:90, and the handler at train.py:92 guards only
`_decode_json`, which raises `json.JSONDecodeError`, never
`BadRequestException` — so both failures propagate and `_phantom` stays
false.  This theorem evaluates `fetch` at both failing inputs. -/
theorem C1_fetch_failure_propagates_instead_of_phantom :
    Train.fetch t0 envFail500
        = (t0, some (.badRequest ⟨"http://resolved", 500, "server error"⟩))
    ∧ Train.fetch t0 envBadJson = (t0, some .jsonDecodeError)
    ∧ t0._phantom = false := by
  decide

/-- Claim C2: `_raw_request` returns the exact response body iff the HTTP
status is exactly 200 and the body does not contain the substring
`"Error"`; otherwise it raises a `BadRequestException` carrying the
resolved URL, the status code and the raw body. -/
theorem C2_raw_request_contract (net : String → HTTPResponse) (method : String)
    (parameters : List String) :
    (ViaggiaTrenoAPI._raw_request net method parameters
        = .ok (net (ViaggiaTrenoAPI.requestUrl method parameters)).text
      ↔ ((net (ViaggiaTrenoAPI.requestUrl method parameters)).status_code = 200
          ∧ pyContains (net (ViaggiaTrenoAPI.requestUrl method parameters)).text "Error"
              = false))
    ∧ (¬((net (ViaggiaTrenoAPI.requestUrl method parameters)).status_code = 200
          ∧ pyContains (net (ViaggiaTrenoAPI.requestUrl method parameters)).text "Error"
              = false)
        → ViaggiaTrenoAPI._raw_request net method parameters
          = .error ⟨(net (ViaggiaTrenoAPI.requestUrl method parameters)).url,
              (net (ViaggiaTrenoAPI.requestUrl method parameters)).status_code,
              (net (ViaggiaTrenoAPI.requestUrl method parameters)).text⟩) := by
  constructor
  · constructor
    · intro hok
      by_cases hA : (net (ViaggiaTrenoAPI.requestUrl method parameters)).status_code = 200
      · refine ⟨hA, ?_⟩
        cases hB : pyContains (net (ViaggiaTrenoAPI.requestUrl method parameters)).text "Error"
        · rfl
        · unfold ViaggiaTrenoAPI._raw_request at hok
          dsimp only at hok
          rw [failCond_true (by simp [hB])] at hok
          simp at hok
      · unfold ViaggiaTrenoAPI._raw_request at hok
        dsimp only at hok
        rw [failCond_true (by simp [hA])] at hok
        simp at hok
    · rintro ⟨hA, hB⟩
      unfold ViaggiaTrenoAPI._raw_request
      dsimp only
      simp [hA, hB]
  · intro h
    unfold ViaggiaTrenoAPI._raw_request
    dsimp only
    rw [failCond_true h]
    simp

/-- Witness for C2 at a concrete failing request. -/
theorem C2_witness :
    ViaggiaTrenoAPI._raw_request envFail500.net "andamentoTreno" ["S1"]
      = .error ⟨"http://resolved", 500, "server error"⟩ := by
  have h := (C2_raw_request_contract envFail500.net "andamentoTreno" ["S1"]).2 (by decide)
  exact h.trans rfl

/-- Claim C3: through construction and any number of `fetch()` calls,
whenever `_phantom` is true the fields `delay`, `last_detection_place` and
`last_detection_time` are all unset.  Under the code this holds because no
reachable state ever has `_phantom = true` (see C1: `fetch` never sets
it). -/
theorem C3_phantom_extended_fields_unset (t : Train) (h : Reachable t) :
    phantomConsistent t = true := by
  have hp := reachable_phantom_false t h
  simp [phantomConsistent, hp]

/-- Witness for C3 at a concrete reachable train. -/
theorem C3_witness : phantomConsistent (Train.init 100 station1) = true :=
  C3_phantom_extended_fields_unset (Train.init 100 station1) (Reachable.init 100 station1)

/-- Claim C4: a category, once set non-empty, is not overwritten by a
later fetch whose payload category is empty or whitespace-only (the code
in fact never overwrites a non-empty category at all: train.py:102-107
requires `not self.category`). -/
theorem C4_category_sticky_once_set (t : Train) (env : FetchEnv) (c s : String)
    (td : TrainData)
    (hc : t.category = some c) (hcne : c ≠ "")
    (_hparse : env.parse (detailResponse t env).text = some td)
    (_hcat : td.categoria = some s) (_hws : pyStrip (pyUpper s) = "") :
    (Train.fetch t env).1.category = some c := by
  have ht : pyTruthyOptStr t.category = true := by
    rw [hc]
    simp [pyTruthyOptStr, bne_iff_ne]
    exact hcne
  exact (fetch_category_sticky t env ht).trans hc

/-- Witness for C4: a train with category "REG" refetched against a
whitespace-only payload category keeps "REG". -/
theorem C4_witness : (Train.fetch tC4 envWS).1.category = some "REG" :=
  C4_category_sticky_once_set tC4 envWS "REG" "   " tdWhitespaceCat rfl (by decide)
    rfl rfl (by decide)

/-- Claim C5: a successful, decoded detail fetch whose destination lookup
fails leaves `_phantom` false and `destination` unset, applies every other
payload field (category per the sticky rule, departed, cancelled, delay,
last detection place and time), and raises nothing. -/
theorem C5_destination_lookup_failure_swallowed
    (t : Train) (env : FetchEnv) (td : TrainData) (d s sp : String) (np : Bool)
    (pr rv : Int) (ot : Option Int) (e : BadRequestException)
    (hph : t._phantom = false) (hdst : t.destination = none)
    (h200 : (detailResponse t env).status_code = 200)
    (hne : pyContains (detailResponse t env).text "Error" = false)
    (hparse : env.parse (detailResponse t env).text = some td)
    (hd : td.idDestinazione = some d) (hbc : env.by_code d = .error e)
    (hcat : td.categoria = some s) (hnp : td.nonPartito = some np)
    (hpr : td.provvedimento = some pr) (hrit : np = false → td.ritardo = some rv)
    (hsp : td.stazioneUltimoRilevamento = some sp)
    (hot : td.oraUltimoRilevamento = some ot) :
    (Train.fetch t env).2 = none
    ∧ (Train.fetch t env).1._phantom = false
    ∧ (Train.fetch t env).1.destination = none
    ∧ (Train.fetch t env).1.category
        = (if pyTruthyStr (pyStrip (pyUpper s))
            && decide (0 < (pyStrip (pyUpper s)).length)
            && !pyTruthyOptStr t.category then some (pyStrip (pyUpper s)) else t.category)
    ∧ (Train.fetch t env).1.departed = some (!np)
    ∧ (Train.fetch t env).1.cancelled = some (pr != 0)
    ∧ (Train.fetch t env).1.delay = (if np then none else some rv)
    ∧ (Train.fetch t env).1.last_detection_place = (if sp != "--" then some sp else none)
    ∧ (Train.fetch t env).1.last_detection_time = ViaggiaTrenoAPI._to_datetime ot := by
  rw [fetch_decoded t env td h200 hne hparse,
    applyDetails_full env.by_code td t d s sp np pr rv ot hd hcat hnp hpr hrit hsp hot,
    hbc]
  simp [hph, hdst]

/-- Witness for C5 at a concrete train and environment. -/
theorem C5_witness :
    (Train.fetch t0 envDestFail).2 = none
    ∧ (Train.fetch t0 envDestFail).1._phantom = false
    ∧ (Train.fetch t0 envDestFail).1.destination = none
    ∧ (Train.fetch t0 envDestFail).1.delay = some 5 := by
  have h := C5_destination_lookup_failure_swallowed t0 envDestFail tdFull "S2" " reg "
    "Milano" false 0 5 (some 1700000000000) ⟨"http://resolved", 204, "not found"⟩
    rfl rfl rfl (by decide) rfl rfl rfl rfl rfl rfl (fun _ => rfl) rfl rfl
  exact ⟨h.1, h.2.1, h.2.2.1, (h.2.2.2.2.2.2.1).trans rfl⟩

/-- Claim C6: after a successful detail fetch the `delay` field equals the
payload `ritardo` when the recomputed `departed` flag is true, and is
unset when `departed` is false, whatever `ritardo` holds. -/
theorem C6_delay_defined_only_when_departed
    (t : Train) (env : FetchEnv) (td : TrainData) (d s sp : String) (np : Bool)
    (pr rv : Int) (ot : Option Int)
    (h200 : (detailResponse t env).status_code = 200)
    (hne : pyContains (detailResponse t env).text "Error" = false)
    (hparse : env.parse (detailResponse t env).text = some td)
    (hd : td.idDestinazione = some d)
    (hcat : td.categoria = some s) (hnp : td.nonPartito = some np)
    (hpr : td.provvedimento = some pr) (hrit : np = false → td.ritardo = some rv)
    (hsp : td.stazioneUltimoRilevamento = some sp)
    (hot : td.oraUltimoRilevamento = some ot) :
    (Train.fetch t env).1.departed = some (!np)
    ∧ ((!np) = true → (Train.fetch t env).1.delay = some rv)
    ∧ ((!np) = false → (Train.fetch t env).1.delay = none) := by
  rw [fetch_decoded t env td h200 hne hparse,
    applyDetails_full env.by_code td t d s sp np pr rv ot hd hcat hnp hpr hrit hsp hot]
  cases np <;> simp

/-- Witness for C6: a departed train gets the payload delay. -/
theorem C6_witness :
    (Train.fetch t0 envOK).1.departed = some true
    ∧ (Train.fetch t0 envOK).1.delay = some 5 := by
  have h := C6_delay_defined_only_when_departed t0 envOK tdFull "S2" " reg " "Milano"
    false 0 5 (some 1700000000000) rfl rfl rfl rfl rfl rfl rfl (fun _ => rfl) rfl rfl
  exact ⟨by simpa using h.1, by simpa using h.2.1 rfl⟩

/-- Claim C7 counterexample: a Phantom train whose re-fetch succeeds and
decodes (nothing is raised, payload applied) is NOT promoted: `_phantom`
is still true afterwards, where the claim requires it to be false. -/
theorem C7_counterexample :
    (Train.fetch tPhantom envOK).2 = none
    ∧ (Train.fetch tPhantom envOK).1.departed = some true
    ∧ (Train.fetch tPhantom envOK).1._phantom = true := by
  decide

/-- Claim C7 (amended): re-fetching a Phantom train re-attempts the detail
request; on success the payload fields are applied but `_phantom` is left
unchanged — the train stays Phantom, it is never promoted to Detailed
(`fetch` never clears `_phantom`); on failure the structured error
propagates (see C1) and the train is unchanged, hence still Phantom. -/
theorem C7_refetch_keeps_phantom (t : Train) (env : FetchEnv)
    (hph : t._phantom = true) :
    (∀ (td : TrainData) (d s sp : String) (np : Bool) (pr rv : Int)
        (ot : Option Int) (st : Station),
      (detailResponse t env).status_code = 200 →
      pyContains (detailResponse t env).text "Error" = false →
      env.parse (detailResponse t env).text = some td →
      td.idDestinazione = some d → env.by_code d = .ok st →
      td.categoria = some s → td.nonPartito = some np →
      td.provvedimento = some pr →
      (np = false → td.ritardo = some rv) →
      td.stazioneUltimoRilevamento = some sp →
      td.oraUltimoRilevamento = some ot →
      ((Train.fetch t env).2 = none
        ∧ (Train.fetch t env).1._phantom = true
        ∧ (Train.fetch t env).1.destination = some st
        ∧ (Train.fetch t env).1.departed = some (!np)
        ∧ (Train.fetch t env).1.cancelled = some (pr != 0)))
    ∧ (¬((detailResponse t env).status_code = 200
          ∧ pyContains (detailResponse t env).text "Error" = false)
        → Train.fetch t env = (t, some (.badRequest ⟨(detailResponse t env).url,
            (detailResponse t env).status_code, (detailResponse t env).text⟩))) := by
  constructor
  · intro td d s sp np pr rv ot st h200 hne hparse hd hbc hcat hnp hpr hrit hsp hot
    rw [fetch_decoded t env td h200 hne hparse,
      applyDetails_full env.by_code td t d s sp np pr rv ot hd hcat hnp hpr hrit hsp hot,
      hbc]
    simp [hph]
  · intro h
    exact fetch_request_error t env h

/-- Witness for the amended C7 at a concrete phantom train. -/
theorem C7_witness :
    (Train.fetch tPhantom envOK).1._phantom = true
    ∧ (Train.fetch tPhantom envOK).2 = none := by
  have h := (C7_refetch_keeps_phantom tPhantom envOK rfl).1 tdFull "S2" " reg "
    "Milano" false 0 5 (some 1700000000000) ⟨"S2", "S2"⟩
    rfl rfl rfl rfl rfl rfl rfl rfl (fun _ => rfl) rfl rfl
  exact ⟨h.2.1, h.1⟩

/-- Claim C8: epoch-millisecond conversion is a pure function mapping
`None` and `0` to unset and any non-zero epoch value to the aware
timestamp of that instant in the fixed reference timezone. -/
theorem C8_to_datetime_contract :
    ViaggiaTrenoAPI._to_datetime none = none
    ∧ ViaggiaTrenoAPI._to_datetime (some 0) = none
    ∧ (∀ t : Int, t ≠ 0 →
        ViaggiaTrenoAPI._to_datetime (some t) = some ⟨t, TIMEZONE⟩) := by
  refine ⟨rfl, rfl, ?_⟩
  intro t ht
  simp [ViaggiaTrenoAPI._to_datetime, ht]

/-- Witness for C8 at the fixed epoch of the spec. -/
theorem C8_witness :
    ViaggiaTrenoAPI._to_datetime (some 1700000000000)
      = some ⟨1700000000000, TIMEZONE⟩ :=
  C8_to_datetime_contract.2.2 1700000000000 (by decide)

/-- Claim C9: construction from a listing record sets
`departed = not nonPartito`, `cancelled = (provvedimento != 0)` and
`category = strip(upper(categoriaDescrizione))`, leaving every extended
field unset. -/
theorem C9_construction_from_listing_record
    (bc : String → Except BadRequestException Station) (d : StationRecord)
    (n : Int) (oc cd : String) (np : Bool) (pr : Int) (st : Station)
    (hn : d.numeroTreno = some n) (ho : d.codOrigine = some oc)
    (hbc : bc oc = .ok st)
    (hcd : d.categoriaDescrizione = some cd) (hnp : d.nonPartito = some np)
    (hpr : d.provvedimento = some pr) :
    Train._from_station_departures_arrivals bc d =
      .ok { number := n, origin := st, destination := none
            category := some (pyStrip (pyUpper cd))
            departed := some (!np), cancelled := some (pr != 0)
            delay := none, last_detection_place := none
            last_detection_time := none, _phantom := false } := by
  unfold Train._from_station_departures_arrivals
  simp only [hn, ho, hbc, hcd, hnp, hpr]
  simp [Train.init]

/-- Witness for C9: the end-to-end example of the spec, category " reg "
becomes "REG", departed true, cancelled false. -/
theorem C9_witness :
    Train._from_station_departures_arrivals bcW recW =
      .ok { number := 100, origin := ⟨"S1", "S1"⟩, destination := none
            category := some "REG", departed := some true, cancelled := some false
            delay := none, last_detection_place := none
            last_detection_time := none, _phantom := false } := by
  have h := C9_construction_from_listing_record bcW recW 100 "S1" " reg " false 0
    ⟨"S1", "S1"⟩ rfl rfl rfl rfl rfl rfl
  exact h.trans rfl

/-- Claim C10: when a successfully decoded payload lacks one of the keys
the code accesses after destination resolution, `fetch` raises `KeyError`
to the caller, `_phantom` stays false, and fields already assigned in the
same call (the freshly resolved destination) keep their new values. -/
theorem C10_missing_key_raises_after_partial_update
    (t : Train) (env : FetchEnv) (td : TrainData) (d k : String) (st : Station)
    (hph : t._phantom = false)
    (h200 : (detailResponse t env).status_code = 200)
    (hne : pyContains (detailResponse t env).text "Error" = false)
    (hparse : env.parse (detailResponse t env).text = some td)
    (hd : td.idDestinazione = some d) (hbc : env.by_code d = .ok st)
    (hk : missingKeyReached td = some k) :
    (Train.fetch t env).2 = some (.keyError k)
    ∧ (Train.fetch t env).1._phantom = false
    ∧ (Train.fetch t env).1.destination = some st := by
  rw [fetch_decoded t env td h200 hne hparse]
  obtain ⟨h1, h2⟩ := applyDetails_keyError env.by_code td t d st k hd hbc hk
  refine ⟨h1, ?_, h2⟩
  rw [applyDetails_phantom]
  exact hph

/-- Witness for C10: a payload missing `categoria` raises
`KeyError "categoria"` after the destination was assigned. -/
theorem C10_witness :
    (Train.fetch t0 envMissingCat).2 = some (.keyError "categoria")
    ∧ (Train.fetch t0 envMissingCat).1._phantom = false
    ∧ (Train.fetch t0 envMissingCat).1.destination = some ⟨"S2", "S2"⟩ :=
  C10_missing_key_raises_after_partial_update t0 envMissingCat tdMissingCat "S2"
    "categoria" ⟨"S2", "S2"⟩ rfl rfl rfl rfl rfl rfl rfl

end RailwayOpendata
